import Mathlib

/-!
# Bakery: a shallow embedding of `bakery.c`

The C program runs six baking-station threads (`bakingBread`), one supplier
thread (`deliverBread`), a watchdog thread (`auto_shutdown`) and two signal
handlers (`qualityCheck` on SIGALRM, `graceful_shutdown` on SIGTERM / SIGINT /
SIGQUIT) over three shared integers: `storage.count`, `supplierInformed` and
`shutdownFlag`.

The embedding keeps the shared integers as `Int` (no operation of the program
can overflow: the only increment is guarded by `count < 30`, the only
subtraction removes at most `count`), turns every critical section into a
function on the shared state that also lists the synchronisation events it
performs, and turns every thread body into a step function on a program
counter named after the source lines it stands for.
-/

namespace Bakery

/-! ## Constants and shared state -/

/-- Maximal storage capacity, `#define STORAGE_MAX_COUNT 30`. -/
def STORAGE_MAX_COUNT : Int := 30

/-- Threshold at which the supplier is called, `#define STORAGE_SUPPLIER_COUNT 20`. -/
def STORAGE_SUPPLIER_COUNT : Int := 20

/-- Number of baking-station threads, `#define BAKING_STATIONS 6`. -/
def BAKING_STATIONS : Nat := 6

/-- The three mutexes of the program: `storage.mutex`, `supplier_mutex`,
`baking_mutex`. -/
inductive Mutex where
  | storage_mutex
  | supplier_mutex
  | baking_mutex
  deriving DecidableEq, Repr

/-- The two condition variables of the program. -/
inductive Cond where
  | supplier_cond
  | baking_cond
  deriving DecidableEq, Repr

/-- The synchronisation and storage events a thread or handler performs, in
program order. `readCount` / `writeCount` are the accesses to `storage.count`,
tagged with the source line they stand on. -/
inductive Ev where
  | lock (m : Mutex)
  | unlock (m : Mutex)
  | cond_wait (c : Cond) (m : Mutex)
  | cond_signal (c : Cond)
  | cond_broadcast (c : Cond)
  | readCount (line : Nat)
  | writeCount (line : Nat)
  | sleep (seconds : Int)
  | alarm (seconds : Int)
  | mutex_init (m : Mutex)
  | cond_init (c : Cond)
  | mutex_destroy (m : Mutex)
  | cond_destroy (c : Cond)
  | sigaction
  | create
  | join
  | call_graceful_shutdown
  deriving DecidableEq, Repr

/-- The shared variables `storage.count`, `supplierInformed`, `shutdownFlag`. -/
structure Shared where
  count : Int
  supplierInformed : Int
  shutdownFlag : Int
  deriving DecidableEq, Repr

/-- The state at program start: all three globals are zero-initialised. -/
def Shared.init : Shared := ⟨0, 0, 0⟩

/-- A piece of code run on the shared state: the state it leaves and the
events it performed. -/
structure Effect where
  next : Shared
  events : List Ev
  deriving DecidableEq, Repr

/-! ## Critical sections -/

/-- How one produce attempt of a baking station ends. -/
inductive Outcome where
  | Accepted
  | Full
  deriving DecidableEq, Repr

/-- Result of one pass through lines 33-51 of `bakingBread`. -/
structure Produce where
  next : Shared
  outcome : Outcome
  events : List Ev
  deriving DecidableEq, Repr

/-- Whether the pass performed `pthread_cond_signal(&supplier_cond)`. -/
def Produce.signalled (p : Produce) : Bool :=
  p.events.contains (Ev.cond_signal Cond.supplier_cond)

/-- Lines 33-51 of `bakingBread`: lock `storage.mutex`; if there is room,
increment the count and, at or above the supplier threshold, signal the
supplier unless it was already informed; unlock. -/
def bakingBread_critical (s : Shared) : Produce :=
  if s.count < STORAGE_MAX_COUNT then
    let s1 : Shared := { s with count := s.count + 1 }
    if s1.count ≥ STORAGE_SUPPLIER_COUNT then
      if s1.supplierInformed = 0 then
        { next := { s1 with supplierInformed := 1 }
          outcome := Outcome.Accepted
          events := [Ev.lock Mutex.storage_mutex, Ev.readCount 35, Ev.readCount 37,
            Ev.writeCount 37, Ev.readCount 39,
            Ev.lock Mutex.supplier_mutex, Ev.cond_signal Cond.supplier_cond,
            Ev.unlock Mutex.supplier_mutex, Ev.unlock Mutex.storage_mutex] }
      else
        { next := s1
          outcome := Outcome.Accepted
          events := [Ev.lock Mutex.storage_mutex, Ev.readCount 35, Ev.readCount 37,
            Ev.writeCount 37, Ev.readCount 39, Ev.lock Mutex.supplier_mutex,
            Ev.unlock Mutex.supplier_mutex, Ev.unlock Mutex.storage_mutex] }
    else
      { next := s1
        outcome := Outcome.Accepted
        events := [Ev.lock Mutex.storage_mutex, Ev.readCount 35, Ev.readCount 37,
          Ev.writeCount 37, Ev.readCount 39, Ev.unlock Mutex.storage_mutex] }
  else
    { next := s
      outcome := Outcome.Full
      events := [Ev.lock Mutex.storage_mutex, Ev.readCount 35, Ev.unlock Mutex.storage_mutex] }

/-- Lines 81-83 of `deliverBread`: under `storage.mutex`, `storage.count = 0`. -/
def deliverBread_reset (s : Shared) : Effect :=
  { next := { s with count := 0 }
    events := [Ev.lock Mutex.storage_mutex, Ev.writeCount 82, Ev.unlock Mutex.storage_mutex] }

/-- Line 84 of `deliverBread`: `supplierInformed = 0`, outside any lock. -/
def deliverBread_clear (s : Shared) : Effect :=
  { next := { s with supplierInformed := 0 }
    events := [] }

/-- Lines 86-88 of `deliverBread`: broadcast `baking_cond` under `baking_mutex`. -/
def deliverBread_broadcast (s : Shared) : Effect :=
  { next := s
    events := [Ev.lock Mutex.baking_mutex, Ev.cond_broadcast Cond.baking_cond,
      Ev.unlock Mutex.baking_mutex] }

/-- Line 98 of `qualityCheck`: `(rand() % 10) + 1`, with C's truncating `%`. -/
def qualityCheck_draw (r : Int) : Int :=
  r.tmod 10 + 1

/-- Lines 100-102 of `qualityCheck`: the local `count` after the clamp. -/
def qualityCheck_removed (r : Int) (s : Shared) : Int :=
  if s.count < qualityCheck_draw r then s.count else qualityCheck_draw r

/-- The handler `qualityCheck`, for the value `r` returned by `rand()`:
lines 98-109. -/
def qualityCheck (r : Int) (s : Shared) : Effect :=
  { next := { s with count := s.count - qualityCheck_removed r s }
    events :=
      [Ev.lock Mutex.storage_mutex, Ev.readCount 100]
      ++ (if s.count < qualityCheck_draw r then [Ev.readCount 101] else [])
      ++ [Ev.readCount 103, Ev.writeCount 103, Ev.unlock Mutex.storage_mutex,
          Ev.lock Mutex.baking_mutex, Ev.cond_broadcast Cond.baking_cond,
          Ev.unlock Mutex.baking_mutex, Ev.alarm 5] }

/-- The handler `graceful_shutdown` on the shared variables: line 115 sets the
flag, lines 117-123 broadcast both condition variables. -/
def graceful_shutdown (s : Shared) : Effect :=
  { next := { s with shutdownFlag := 1 }
    events := [Ev.lock Mutex.baking_mutex, Ev.cond_broadcast Cond.baking_cond,
      Ev.unlock Mutex.baking_mutex, Ev.lock Mutex.supplier_mutex,
      Ev.cond_broadcast Cond.supplier_cond, Ev.unlock Mutex.supplier_mutex] }

/-! ## The storage as a transition system -/

/-- One storage-mutating step, each critical section taken atomically: a
baking station's produce attempt, the supplier's reset, or a quality check for
a drawn value `r ≥ 0`. -/
inductive StorageStep : Shared → Shared → Prop where
  | bake (s : Shared) : StorageStep s (bakingBread_critical s).next
  | deliver (s : Shared) : StorageStep s (deliverBread_reset s).next
  | quality (r : Int) (s : Shared) (hr : 0 ≤ r) : StorageStep s (qualityCheck r s).next

/-- States reachable from `Shared.init` by finitely many storage steps. -/
inductive StorageReachable : Shared → Prop where
  | init : StorageReachable Shared.init
  | step {s t : Shared} : StorageReachable s → StorageStep s t → StorageReachable t

/-! ## Thread bodies as step functions -/

/-- Result of one step of a thread: shared state, next program counter, events. -/
structure ThreadStep (Pc : Type) where
  next : Shared
  pc : Pc
  events : List Ev

/-- Program counter of a baking station (`bakingBread`).
* `loopTest`: line 31, `while (!shutdownFlag)`;
* `produce`: lines 33-51, the critical section;
* `baking`: line 49, `sleep(1)`;
* `lockBaking`: line 54, after `storage.mutex` was released and before
  `baking_mutex` is taken;
* `waiting`: line 56, blocked in `pthread_cond_wait`;
* `notified`: woken inside `pthread_cond_wait`, about to return to the test of
  line 55;
* `finished`: lines 62-63. -/
inductive BakerPc where
  | loopTest
  | produce
  | baking
  | lockBaking
  | waiting
  | notified
  | finished
  deriving DecidableEq, Repr

/-- Lines 55-58 of `bakingBread`, entered with `baking_mutex` held: test
`storage.count >= STORAGE_MAX_COUNT`; wait again while it holds, otherwise
unlock and go back to the loop test. -/
def bakingBread_waitLoop (s : Shared) (entry : List Ev) : ThreadStep BakerPc :=
  if s.count ≥ STORAGE_MAX_COUNT then
    { next := s, pc := BakerPc.waiting
      events := entry ++ [Ev.readCount 55, Ev.cond_wait Cond.baking_cond Mutex.baking_mutex] }
  else
    { next := s, pc := BakerPc.loopTest
      events := entry ++ [Ev.readCount 55, Ev.unlock Mutex.baking_mutex] }

/-- One step of a baking station; `none` when it is blocked or has returned. -/
def bakingBread_step (s : Shared) : BakerPc → Option (ThreadStep BakerPc)
  | BakerPc.loopTest =>
      if s.shutdownFlag = 0 then some { next := s, pc := BakerPc.produce, events := [] }
      else some { next := s, pc := BakerPc.finished, events := [] }
  | BakerPc.produce =>
      match (bakingBread_critical s).outcome with
      | Outcome.Accepted =>
          some { next := (bakingBread_critical s).next, pc := BakerPc.baking
                 events := (bakingBread_critical s).events }
      | Outcome.Full =>
          some { next := (bakingBread_critical s).next, pc := BakerPc.lockBaking
                 events := (bakingBread_critical s).events }
  | BakerPc.baking => some { next := s, pc := BakerPc.loopTest, events := [Ev.sleep 1] }
  | BakerPc.lockBaking => some (bakingBread_waitLoop s [Ev.lock Mutex.baking_mutex])
  | BakerPc.waiting => none
  | BakerPc.notified => some (bakingBread_waitLoop s [])
  | BakerPc.finished => none

/-- Program counter of the supplier (`deliverBread`).
* `loopTest`: line 68, `while (!shutdownFlag)`;
* `lockSupplier`: lines 70-72, about to lock `supplier_mutex` and wait;
* `waiting`: line 72, blocked in `pthread_cond_wait`;
* `notified`: woken inside `pthread_cond_wait`, not yet returned;
* `flagTest`: line 76, `if (!shutdownFlag)`;
* `pickupDelay`: line 78, `sleep((rand() % 4) + 1)`;
* `reset`: lines 81-83, `storage.count = 0` under `storage.mutex`;
* `clear`: line 84, `supplierInformed = 0`;
* `wakeBakers`: lines 86-88, broadcast on `baking_cond`;
* `finished`: lines 91-92. -/
inductive SupplierPc where
  | loopTest
  | lockSupplier
  | waiting
  | notified
  | flagTest
  | pickupDelay
  | reset
  | clear
  | wakeBakers
  | finished
  deriving DecidableEq, Repr

/-- One step of the supplier, `r` being the value `rand()` returns if the step
is the pickup delay; `none` when it is blocked or has returned. -/
def deliverBread_step (r : Int) (s : Shared) : SupplierPc → Option (ThreadStep SupplierPc)
  | SupplierPc.loopTest =>
      if s.shutdownFlag = 0 then some { next := s, pc := SupplierPc.lockSupplier, events := [] }
      else some { next := s, pc := SupplierPc.finished, events := [] }
  | SupplierPc.lockSupplier =>
      some { next := s, pc := SupplierPc.waiting
             events := [Ev.lock Mutex.supplier_mutex,
               Ev.cond_wait Cond.supplier_cond Mutex.supplier_mutex] }
  | SupplierPc.waiting => none
  | SupplierPc.notified =>
      some { next := s, pc := SupplierPc.flagTest, events := [Ev.unlock Mutex.supplier_mutex] }
  | SupplierPc.flagTest =>
      if s.shutdownFlag = 0 then some { next := s, pc := SupplierPc.pickupDelay, events := [] }
      else some { next := s, pc := SupplierPc.loopTest, events := [] }
  | SupplierPc.pickupDelay =>
      some { next := s, pc := SupplierPc.reset, events := [Ev.sleep (r.tmod 4 + 1)] }
  | SupplierPc.reset =>
      some { next := (deliverBread_reset s).next, pc := SupplierPc.clear
             events := (deliverBread_reset s).events }
  | SupplierPc.clear =>
      some { next := (deliverBread_clear s).next, pc := SupplierPc.wakeBakers
             events := (deliverBread_clear s).events }
  | SupplierPc.wakeBakers =>
      some { next := (deliverBread_broadcast s).next, pc := SupplierPc.loopTest
             events := (deliverBread_broadcast s).events }
  | SupplierPc.finished => none

/-- A waiting baking station is woken; any other is unaffected. -/
def BakerPc.notify : BakerPc → BakerPc
  | BakerPc.waiting => BakerPc.notified
  | pc => pc

/-- A waiting supplier is woken; otherwise nothing happens. -/
def SupplierPc.notify : SupplierPc → SupplierPc
  | SupplierPc.waiting => SupplierPc.notified
  | pc => pc

/-! ## The whole program as a transition system -/

/-- Global state: the shared variables and where every worker stands. -/
structure Sys where
  shared : Shared
  bakers : List BakerPc
  supplier : SupplierPc
  deriving DecidableEq, Repr

/-- The state `main` sets up: six baking stations and the supplier at the top
of their loops, all shared variables zero. -/
def Sys.init : Sys :=
  { shared := Shared.init
    bakers := List.replicate BAKING_STATIONS BakerPc.loopTest
    supplier := SupplierPc.loopTest }

/-- What can happen next: worker `i` of the baking stations runs, the supplier
runs (with `r` the next value of `rand()`), SIGALRM runs `qualityCheck` (with
`r` the next value of `rand()`), a termination signal or the watchdog runs
`graceful_shutdown`, or a wait returns spuriously (POSIX allows it). -/
inductive Label where
  | baker (i : Nat)
  | supplier (r : Int)
  | qualityCheck (r : Int)
  | graceful_shutdown
  | spuriousBaker (i : Nat)
  | spuriousSupplier
  deriving DecidableEq, Repr

/-- Wake-ups caused by the events of a step: a broadcast on `baking_cond` wakes
every waiting baking station, a signal or broadcast on `supplier_cond` wakes
the supplier if it waits (it is the only waiter on that condition). -/
def Sys.deliver (events : List Ev) (s : Sys) : Sys :=
  { shared := s.shared
    bakers :=
      if events.contains (Ev.cond_broadcast Cond.baking_cond) then s.bakers.map BakerPc.notify
      else s.bakers
    supplier :=
      if events.contains (Ev.cond_signal Cond.supplier_cond)
          || events.contains (Ev.cond_broadcast Cond.supplier_cond) then s.supplier.notify
      else s.supplier }

/-- The handler `qualityCheck` run on the global state. -/
def Sys.qualityCheck (r : Int) (s : Sys) : Sys :=
  Sys.deliver (Bakery.qualityCheck r s.shared).events
    { s with shared := (Bakery.qualityCheck r s.shared).next }

/-- The handler `graceful_shutdown` run on the global state. -/
def Sys.graceful_shutdown (s : Sys) : Sys :=
  Sys.deliver (Bakery.graceful_shutdown s.shared).events
    { s with shared := (Bakery.graceful_shutdown s.shared).next }

/-- One transition of the program; `none` when the chosen worker cannot move. -/
def Sys.step : Label → Sys → Option Sys
  | Label.baker i, s =>
      match s.bakers[i]? with
      | none => none
      | some pc =>
          match bakingBread_step s.shared pc with
          | none => none
          | some t =>
              some (Sys.deliver t.events { s with shared := t.next, bakers := s.bakers.set i t.pc })
  | Label.supplier r, s =>
      match deliverBread_step r s.shared s.supplier with
      | none => none
      | some t => some (Sys.deliver t.events { s with shared := t.next, supplier := t.pc })
  | Label.qualityCheck r, s => some (Sys.qualityCheck r s)
  | Label.graceful_shutdown, s => some (Sys.graceful_shutdown s)
  | Label.spuriousBaker i, s =>
      match s.bakers[i]? with
      | none => none
      | some pc => some { s with bakers := s.bakers.set i pc.notify }
  | Label.spuriousSupplier, s => some { s with supplier := s.supplier.notify }

/-- Run a schedule on top of a history (the states visited so far, the latest
first), recording every new state; `none` when some label of the schedule is
not enabled. -/
def Sys.run : List Label → List Sys → Option (List Sys)
  | [], h => some h
  | _ :: _, [] => none
  | l :: ls, s :: h =>
      match Sys.step l s with
      | none => none
      | some s1 => Sys.run ls (s1 :: s :: h)

/-- State a schedule leads to from the initial state. -/
def Sys.exec (ls : List Label) : Option Sys :=
  (Sys.run ls [Sys.init]).bind List.head?

/-- Events performed by one transition: those of the worker's step or of the
handler; a spurious wake-up or a worker that cannot move performs none. -/
def Sys.events : Label → Sys → List Ev
  | Label.baker i, s =>
      match s.bakers[i]? with
      | none => []
      | some pc =>
          match bakingBread_step s.shared pc with
          | none => []
          | some t => t.events
  | Label.supplier r, s =>
      match deliverBread_step r s.shared s.supplier with
      | none => []
      | some t => t.events
  | Label.qualityCheck r, s => (Bakery.qualityCheck r s.shared).events
  | Label.graceful_shutdown, s => (Bakery.graceful_shutdown s.shared).events
  | Label.spuriousBaker _, _ => []
  | Label.spuriousSupplier, _ => []

/-- Events of a whole schedule run from a state, in the order they happen;
`none` when some label of the schedule is not enabled. -/
def Sys.trace : List Label → Sys → Option (List Ev)
  | [], _ => some []
  | l :: ls, s =>
      match Sys.step l s with
      | none => none
      | some s1 => (Sys.trace ls s1).map (fun es => Sys.events l s ++ es)

/-- The high-water signals of the baking stations (line 43, the only
`pthread_cond_signal` of the program) and the supplier's resets of the count
(line 82) among a sequence of events, in order. -/
def highWaterMarks (es : List Ev) : List Ev :=
  es.filter (fun e => e == Ev.cond_signal Cond.supplier_cond || e == Ev.writeCount 82)

/-! ## The watchdog -/

/-- The loop of `auto_shutdown` (lines 129-134) with `timer` iterations left:
sleep one second, decrement, return if the flag is observed set. `flagAt k` is
the value of `shutdownFlag` read by the `k`-th check (counted from 0). After
the loop, line 135 calls `graceful_shutdown`. The C `int timer` starts at 40
and is only decremented while positive, so it is a natural number here. -/
def auto_shutdown_loop (flagAt : Nat → Int) : Nat → Nat → List Ev
  | 0, _ => [Ev.call_graceful_shutdown]
  | timer + 1, k =>
      Ev.sleep 1 :: (if flagAt k ≠ 0 then [] else auto_shutdown_loop flagAt timer (k + 1))

/-- The thread function `auto_shutdown`: `int timer = 40` then the loop. -/
def auto_shutdown (flagAt : Nat → Int) : List Ev :=
  auto_shutdown_loop flagAt 40 0

/-! ## Lock discipline on `storage.count` -/

/-- Scan a thread's events: `held` says whether the thread holds
`storage.mutex`; every access to `storage.count` must happen while it is held,
except on the lines `exempt` leaves out of the check. -/
def lockDiscipline (exempt : Nat → Bool) : Bool → List Ev → Bool
  | _, [] => true
  | _, Ev.lock Mutex.storage_mutex :: es => lockDiscipline exempt true es
  | _, Ev.unlock Mutex.storage_mutex :: es => lockDiscipline exempt false es
  | held, Ev.readCount line :: es => (held || exempt line) && lockDiscipline exempt held es
  | held, Ev.writeCount line :: es => (held || exempt line) && lockDiscipline exempt held es
  | held, _ :: es => lockDiscipline exempt held es

/-- Every access to `storage.count` in the event sequence lies between a lock
of `storage.mutex` and the matching unlock. -/
def disciplined (es : List Ev) : Bool :=
  lockDiscipline (fun _ => false) false es

/-- Events of a baking station that starts at `pc` and, at its successive
steps, finds the shared variables as listed in `seen` (whatever the other
threads made of them); a blocked station is woken for its next step. -/
def bakingBread_events : List Shared → BakerPc → List Ev
  | [], _ => []
  | s :: seen, pc =>
      match bakingBread_step s pc with
      | none => bakingBread_events seen pc.notify
      | some t => t.events ++ bakingBread_events seen t.pc

/-- Events of the supplier that starts at `pc` and, at its successive steps,
finds the shared variables and the value of `rand()` as listed in `seen`; a
blocked supplier is woken for its next step. -/
def deliverBread_events : List (Int × Shared) → SupplierPc → List Ev
  | [], _ => []
  | (r, s) :: seen, pc =>
      match deliverBread_step r s pc with
      | none => deliverBread_events seen pc.notify
      | some t => t.events ++ deliverBread_events seen t.pc

/-- Events of `main` when every initialisation succeeds: lines 145-166 set up
the mutexes and conditions, 173-198 the handlers, 201-221 the threads, 223 the
alarm, 226-234 the joins, 237-241 the teardown, 243 the final
`storage.count = 0`. -/
def main_events : List Ev :=
  [Ev.mutex_init Mutex.storage_mutex, Ev.mutex_init Mutex.supplier_mutex,
   Ev.mutex_init Mutex.baking_mutex, Ev.cond_init Cond.supplier_cond,
   Ev.cond_init Cond.baking_cond,
   Ev.sigaction, Ev.sigaction, Ev.sigaction, Ev.sigaction]
  ++ List.replicate BAKING_STATIONS Ev.create ++ [Ev.create, Ev.create, Ev.alarm 5]
  ++ List.replicate BAKING_STATIONS Ev.join ++ [Ev.join, Ev.join]
  ++ [Ev.mutex_destroy Mutex.storage_mutex, Ev.mutex_destroy Mutex.supplier_mutex,
      Ev.mutex_destroy Mutex.baking_mutex, Ev.cond_destroy Cond.supplier_cond,
      Ev.cond_destroy Cond.baking_cond, Ev.writeCount 243]

/-! ## Theorems -/

/-- Range of the drawn removal quantity: for `r ≥ 0`, `(r % 10) + 1` lies in 1..10. -/
theorem qualityCheck_draw_range (r : Int) (hr : 0 ≤ r) :
    1 ≤ qualityCheck_draw r ∧ qualityCheck_draw r ≤ 10 := by
  have h0 : 0 ≤ r.tmod 10 := Int.tmod_nonneg 10 hr
  have h1 : r.tmod 10 < 10 := Int.tmod_lt_of_pos r (by decide)
  unfold qualityCheck_draw
  constructor <;> omega

/-- The count a quality check leaves, written out. -/
theorem qualityCheck_count (r : Int) (s : Shared) :
    (qualityCheck r s).next.count = s.count - qualityCheck_removed r s := rfl

/-- A quality check keeps the count within `0..30` when it starts there. -/
theorem qualityCheck_bounds (r : Int) (s : Shared) (hr : 0 ≤ r)
    (h0 : 0 ≤ s.count) (h30 : s.count ≤ STORAGE_MAX_COUNT) :
    0 ≤ (qualityCheck r s).next.count ∧ (qualityCheck r s).next.count ≤ STORAGE_MAX_COUNT := by
  have hd := qualityCheck_draw_range r hr
  rw [qualityCheck_count]
  unfold qualityCheck_removed
  split <;> constructor <;> omega

/-- A produce attempt keeps the count within `0..30` when it starts there. -/
theorem bakingBread_critical_bounds (s : Shared)
    (h0 : 0 ≤ s.count) (h30 : s.count ≤ STORAGE_MAX_COUNT) :
    0 ≤ (bakingBread_critical s).next.count ∧
      (bakingBread_critical s).next.count ≤ STORAGE_MAX_COUNT := by
  unfold bakingBread_critical
  simp only [STORAGE_MAX_COUNT, STORAGE_SUPPLIER_COUNT] at *
  split_ifs <;> simp <;> omega

/-- C1. Every state reachable from the initial state by produce attempts,
supplier resets and quality checks (for drawn values `r ≥ 0`), each taken
atomically, has `0 ≤ count ≤ 30`. -/
theorem C1_count_bounds_invariant (s : Shared) (h : StorageReachable s) :
    0 ≤ s.count ∧ s.count ≤ 30 := by
  induction h with
  | init => simp [Shared.init]
  | step _ hstep ih =>
    cases hstep with
    | bake => exact bakingBread_critical_bounds _ ih.1 ih.2
    | deliver => simp [deliverBread_reset]
    | quality r _ hr => exact qualityCheck_bounds r _ hr ih.1 ih.2

/-- C1 witness: one accepted loaf followed by a quality check with `rand() = 13`
(drawing `k = 4`) is a reachable state, and its count is within bounds. -/
theorem C1_count_bounds_invariant_witness :
    StorageReachable (qualityCheck 13 (bakingBread_critical Shared.init).next).next ∧
      (0 ≤ (qualityCheck 13 (bakingBread_critical Shared.init).next).next.count ∧
        (qualityCheck 13 (bakingBread_critical Shared.init).next).next.count ≤ 30) :=
  ⟨.step (.step .init (.bake _)) (.quality 13 _ (by decide)),
    C1_count_bounds_invariant _ (.step (.step .init (.bake _)) (.quality 13 _ (by decide)))⟩

/-- A produce attempt never writes `shutdownFlag`. -/
theorem bakingBread_critical_flag (s : Shared) :
    (bakingBread_critical s).next.shutdownFlag = s.shutdownFlag := by
  unfold bakingBread_critical
  dsimp only
  split_ifs <;> rfl

/-- C2. One pass through the critical section of `bakingBread`: with room
(`count < 30`) the count grows by one and the attempt is Accepted, the supplier
is signalled exactly when the new count is at least 20 and `supplierInformed`
was 0, in which case `supplierInformed` becomes 1 and otherwise stays as it
was; without room (`count ≥ 30`) the attempt is Full, the shared state is
unchanged and nothing is signalled. `shutdownFlag` is never touched. -/
theorem C2_bakingBread_critical_spec (s : Shared) :
    (s.count < 30 →
        (bakingBread_critical s).outcome = Outcome.Accepted ∧
        (bakingBread_critical s).next.count = s.count + 1 ∧
        ((Ev.cond_signal Cond.supplier_cond ∈ (bakingBread_critical s).events) ↔
          (s.count + 1 ≥ 20 ∧ s.supplierInformed = 0)) ∧
        ((s.count + 1 ≥ 20 ∧ s.supplierInformed = 0) →
          (bakingBread_critical s).next.supplierInformed = 1) ∧
        (¬ (s.count + 1 ≥ 20 ∧ s.supplierInformed = 0) →
          (bakingBread_critical s).next.supplierInformed = s.supplierInformed)) ∧
    (s.count ≥ 30 →
        (bakingBread_critical s).outcome = Outcome.Full ∧
        (bakingBread_critical s).next = s ∧
        Ev.cond_signal Cond.supplier_cond ∉ (bakingBread_critical s).events) ∧
    (bakingBread_critical s).next.shutdownFlag = s.shutdownFlag := by
  unfold bakingBread_critical
  simp only [STORAGE_MAX_COUNT, STORAGE_SUPPLIER_COUNT]
  refine ⟨fun h => ?_, fun h => ?_, ?_⟩
  · rw [if_pos h]
    by_cases h20 : s.count + 1 ≥ 20
    · by_cases hi : s.supplierInformed = 0
      · simp [h20, hi]
      · simp [h20, hi]
    · simp [h20]
  · rw [if_neg (by omega)]
    simp
  · split_ifs <;> rfl

/-- C3. For a stock within `0..30` and a value `r ≥ 0` returned by `rand()`,
the quality check draws `k = (r mod 10) + 1` in `1..10` and leaves
`max 0 (count - k)`: it removes exactly `min k count` loaves, never more than
are present. -/
theorem C3_qualityCheck_removeUpTo (r : Int) (s : Shared) (hr : 0 ≤ r)
    (h0 : 0 ≤ s.count) (h30 : s.count ≤ 30) :
    qualityCheck_draw r = r % 10 + 1 ∧
    1 ≤ qualityCheck_draw r ∧ qualityCheck_draw r ≤ 10 ∧
    (qualityCheck r s).next.count = max 0 (s.count - qualityCheck_draw r) ∧
    s.count - (qualityCheck r s).next.count = min (qualityCheck_draw r) s.count ∧
    s.count - (qualityCheck r s).next.count ≤ s.count ∧
    (0 ≤ (qualityCheck r s).next.count ∧ (qualityCheck r s).next.count ≤ 30) ∧
    (qualityCheck r s).next.supplierInformed = s.supplierInformed ∧
    (qualityCheck r s).next.shutdownFlag = s.shutdownFlag := by
  have hd := qualityCheck_draw_range r hr
  refine ⟨?_, hd.1, hd.2, ?_, ?_, ?_, qualityCheck_bounds r s hr h0 h30, rfl, rfl⟩
  · unfold qualityCheck_draw
    rw [Int.tmod_eq_emod hr (by decide)]
  · rw [qualityCheck_count]
    unfold qualityCheck_removed
    split <;> omega
  · rw [qualityCheck_count]
    unfold qualityCheck_removed
    split <;> omega
  · rw [qualityCheck_count]
    unfold qualityCheck_removed
    split <;> omega

/-- C3 witness: stock 7, `rand() = 19` draws `k = 10`, which removes the 7
loaves present and leaves 0. -/
theorem C3_qualityCheck_removeUpTo_witness :
    (qualityCheck 19 ⟨7, 0, 0⟩).next.count = max 0 (7 - qualityCheck_draw 19) ∧
      (7 : Int) - (qualityCheck 19 ⟨7, 0, 0⟩).next.count = min (qualityCheck_draw 19) 7 :=
  ⟨(C3_qualityCheck_removeUpTo 19 ⟨7, 0, 0⟩ (by decide) (by decide) (by decide)).2.2.2.1,
    (C3_qualityCheck_removeUpTo 19 ⟨7, 0, 0⟩ (by decide) (by decide) (by decide)).2.2.2.2.1⟩

/-- C4 counterexample: with stock 29 and `rand() = 9` the draw is `k = 10`; the
clamp of line 100 does not fire (`29 < 10` is false), 10 loaves are removed and
the count left is 19, not 0. -/
theorem C4_scenarioB_counterexample :
    qualityCheck_draw 9 = 10 ∧
    qualityCheck_removed 9 ⟨29, 0, 0⟩ = 10 ∧
    (qualityCheck 9 ⟨29, 0, 0⟩).next.count = 19 ∧
    ¬ (qualityCheck_removed 9 ⟨29, 0, 0⟩ = 29 ∧ (qualityCheck 9 ⟨29, 0, 0⟩).next.count = 0) := by
  decide

/-- C4 (amended). With stock 29 and a draw of `k = 10` the quality check does
not clamp: it removes 10 loaves and leaves a count of 19. -/
theorem C4_scenarioB_amended (r : Int) (s : Shared)
    (hk : qualityCheck_draw r = 10) (hc : s.count = 29) :
    qualityCheck_removed r s = 10 ∧ (qualityCheck r s).next.count = 19 := by
  rw [qualityCheck_count]
  unfold qualityCheck_removed
  rw [hk, hc]
  decide

/-- C4 witness: `rand() = 9` draws 10 at stock 29. -/
theorem C4_scenarioB_amended_witness :
    qualityCheck_removed 9 ⟨29, 0, 0⟩ = 10 ∧ (qualityCheck 9 ⟨29, 0, 0⟩).next.count = 19 :=
  C4_scenarioB_amended 9 ⟨29, 0, 0⟩ (by decide) rfl

/-! ### High-water signals and resets -/

/-- A produce attempt signals only when `supplierInformed` is 0, and then sets it to 1. -/
theorem bakingBread_critical_signalled (s : Shared)
    (h : (bakingBread_critical s).signalled = true) :
    s.supplierInformed = 0 ∧ (bakingBread_critical s).next.supplierInformed = 1 := by
  unfold bakingBread_critical at h ⊢
  by_cases h1 : s.count < STORAGE_MAX_COUNT
  · by_cases h2 : s.count + 1 ≥ STORAGE_SUPPLIER_COUNT
    · by_cases h3 : s.supplierInformed = 0
      · simp [h1, h2, h3]
      · simp [h1, h2, h3, Produce.signalled] at h
    · simp [h1, h2, Produce.signalled] at h
  · simp [h1, Produce.signalled] at h

/-- A produce attempt never clears a set `supplierInformed`. -/
theorem bakingBread_critical_informed (s : Shared) (h : s.supplierInformed ≠ 0) :
    (bakingBread_critical s).next.supplierInformed = s.supplierInformed := by
  unfold bakingBread_critical
  by_cases h1 : s.count < STORAGE_MAX_COUNT
  · by_cases h2 : s.count + 1 ≥ STORAGE_SUPPLIER_COUNT
    · simp [h1, h2, h]
    · simp [h1, h2]
  · simp [h1]

/-- C5 (what the code does). A produce attempt signals only from
`supplierInformed = 0` and leaves it 1, and never clears a set
`supplierInformed`; Scenario A holds: twenty loaves baked from the initial
state reach count 20 with exactly one signal. But `deliverBread` resets the
count under `storage.mutex` (lines 81-83) and clears `supplierInformed` only
afterwards, holding no lock (line 84), and it waits on `supplier_cond` without
re-testing a condition. In the schedule below the supplier's wait returns
spuriously, it resets the count, a baking station bakes twenty loaves (and
signals at the twentieth) before line 84 runs, line 84 clears the flag, and
the next loaf signals again: two high-water signals between two consecutive
resets. -/
theorem C5_two_signals_between_resets :
    (∀ s : Shared, (bakingBread_critical s).signalled = true →
        s.supplierInformed = 0 ∧ (bakingBread_critical s).next.supplierInformed = 1) ∧
    (∀ s : Shared, s.supplierInformed ≠ 0 →
        (bakingBread_critical s).next.supplierInformed = s.supplierInformed) ∧
    ((Sys.trace (List.replicate 60 (Label.baker 0)) Sys.init).map highWaterMarks
        = some [Ev.cond_signal Cond.supplier_cond] ∧
      Sys.exec (List.replicate 60 (Label.baker 0))
        = some { shared := ⟨20, 1, 0⟩
                 bakers := List.replicate 6 BakerPc.loopTest
                 supplier := SupplierPc.loopTest }) ∧
    (Sys.exec ([Label.supplier 0, Label.supplier 0, Label.spuriousSupplier, Label.supplier 0,
          Label.supplier 0, Label.supplier 0, Label.supplier 0]
        ++ List.replicate 60 (Label.baker 0))
      = some { shared := ⟨20, 1, 0⟩
               bakers := List.replicate 6 BakerPc.loopTest
               supplier := SupplierPc.clear }) ∧
    ((Sys.trace ([Label.supplier 0, Label.supplier 0, Label.spuriousSupplier, Label.supplier 0,
          Label.supplier 0, Label.supplier 0, Label.supplier 0]
        ++ List.replicate 60 (Label.baker 0)
        ++ [Label.supplier 0, Label.supplier 0, Label.supplier 0, Label.supplier 0,
            Label.baker 0, Label.baker 0,
            Label.supplier 0, Label.supplier 0, Label.supplier 0, Label.supplier 0])
        Sys.init).map highWaterMarks
      = some [Ev.writeCount 82, Ev.cond_signal Cond.supplier_cond,
              Ev.cond_signal Cond.supplier_cond, Ev.writeCount 82]) := by
  refine ⟨bakingBread_critical_signalled, bakingBread_critical_informed, ⟨?_, ?_⟩, ?_, ?_⟩
  · decide
  · decide
  · decide
  · decide

/-! ### Shutdown -/

/-- C8. Shutdown is idempotent and does not touch the stock: running
`graceful_shutdown` twice leaves the same global state as running it once,
with `shutdownFlag = 1`, and `count` and `supplierInformed` are as before. -/
theorem C8_graceful_shutdown_idempotent (s : Sys) :
    Sys.graceful_shutdown (Sys.graceful_shutdown s) = Sys.graceful_shutdown s ∧
    (Sys.graceful_shutdown s).shared.shutdownFlag = 1 ∧
    (Sys.graceful_shutdown (Sys.graceful_shutdown s)).shared.shutdownFlag = 1 ∧
    (Sys.graceful_shutdown s).shared.count = s.shared.count ∧
    (Sys.graceful_shutdown s).shared.supplierInformed = s.shared.supplierInformed ∧
    (graceful_shutdown (graceful_shutdown s.shared).next).next = (graceful_shutdown s.shared).next := by
  refine ⟨?_, rfl, rfl, rfl, rfl, rfl⟩
  obtain ⟨sh, bakers, sup⟩ := s
  simp only [Sys.graceful_shutdown, Sys.deliver, graceful_shutdown]
  have hb : ∀ pc : BakerPc, pc.notify.notify = pc.notify := by
    intro pc; cases pc <;> rfl
  have hs : sup.notify.notify = sup.notify := by cases sup <;> rfl
  simp [hb, hs, Function.comp_def]

/-! ### The watchdog -/

/-- With the flag unset at every remaining check the loop sleeps `timer` times
and then calls `graceful_shutdown`. -/
theorem auto_shutdown_loop_unset (flagAt : Nat → Int) (timer k : Nat)
    (h : ∀ j, j < timer → flagAt (k + j) = 0) :
    auto_shutdown_loop flagAt timer k
      = List.replicate timer (Ev.sleep 1) ++ [Ev.call_graceful_shutdown] := by
  induction timer generalizing k with
  | zero => rfl
  | succ t ih =>
    have h0 : flagAt k = 0 := by simpa using h 0 (Nat.succ_pos t)
    have ht : ∀ j, j < t → flagAt (k + 1 + j) = 0 := by
      intro j hj
      have := h (j + 1) (Nat.succ_lt_succ hj)
      rwa [show k + 1 + j = k + (j + 1) by omega]
    simp [auto_shutdown_loop, h0, ih (k + 1) ht, List.replicate_succ]

/-- With the flag first observed set at check `j` the loop returns right after
its `j + 1`-th sleep, without calling `graceful_shutdown`. -/
theorem auto_shutdown_loop_set (flagAt : Nat → Int) (timer k j : Nat) (hj : j < timer)
    (hset : flagAt (k + j) ≠ 0) (hbefore : ∀ i, i < j → flagAt (k + i) = 0) :
    auto_shutdown_loop flagAt timer k = List.replicate (j + 1) (Ev.sleep 1) := by
  induction timer generalizing k j with
  | zero => exact absurd hj (Nat.not_lt_zero j)
  | succ t ih =>
    cases j with
    | zero =>
      have h0 : flagAt k ≠ 0 := by simpa using hset
      simp [auto_shutdown_loop, h0]
    | succ j =>
      have h0 : flagAt k = 0 := by simpa using hbefore 0 (Nat.succ_pos j)
      have hset1 : flagAt (k + 1 + j) ≠ 0 := by
        rwa [show k + 1 + j = k + (j + 1) by omega]
      have hb1 : ∀ i, i < j → flagAt (k + 1 + i) = 0 := by
        intro i hi
        have := hbefore (i + 1) (Nat.succ_lt_succ hi)
        rwa [show k + 1 + i = k + (i + 1) by omega]
      have := ih (k + 1) j (Nat.lt_of_succ_lt_succ hj) hset1 hb1
      simp [auto_shutdown_loop, h0, this, List.replicate_succ]

/-- The loop sleeps at most `timer` times and calls `graceful_shutdown` at most once. -/
theorem auto_shutdown_loop_counts (flagAt : Nat → Int) (timer k : Nat) :
    (auto_shutdown_loop flagAt timer k).count (Ev.sleep 1) ≤ timer ∧
      (auto_shutdown_loop flagAt timer k).count Ev.call_graceful_shutdown ≤ 1 := by
  induction timer generalizing k with
  | zero => simp [auto_shutdown_loop]
  | succ t ih =>
    by_cases h0 : flagAt k = 0
    · have := ih (k + 1)
      simp only [auto_shutdown_loop, h0, ne_eq, not_true_eq_false, if_false]
      rw [List.count_cons_self, List.count_cons_of_ne (by simp)]
      omega
    · simp [auto_shutdown_loop, h0]

/-- The loop calls `graceful_shutdown` only if every remaining check saw the flag unset. -/
theorem auto_shutdown_loop_call (flagAt : Nat → Int) (timer k : Nat)
    (h : Ev.call_graceful_shutdown ∈ auto_shutdown_loop flagAt timer k) :
    ∀ j, j < timer → flagAt (k + j) = 0 := by
  induction timer generalizing k with
  | zero => intro j hj; exact absurd hj (Nat.not_lt_zero j)
  | succ t ih =>
    by_cases h0 : flagAt k = 0
    · simp only [auto_shutdown_loop, h0, ne_eq, not_true_eq_false, if_false,
        List.mem_cons] at h
      rcases h with h | h
      · cases h
      · intro j hj
        cases j with
        | zero => simpa using h0
        | succ j =>
          have := ih (k + 1) h j (Nat.lt_of_succ_lt_succ hj)
          rwa [show k + 1 + j = k + (j + 1) by omega] at this
    · simp [auto_shutdown_loop, h0] at h

/-- C9. The watchdog `auto_shutdown`, given the flag values `flagAt 0, flagAt 1,
...` it reads after its successive one-second sleeps, sleeps at most 40 times
and calls `graceful_shutdown` at most once; if all 40 reads see the flag unset
it sleeps exactly 40 times and then calls `graceful_shutdown` exactly once; if
some read sees the flag set it returns right after the first such read,
without calling `graceful_shutdown`. -/
theorem C9_auto_shutdown_watchdog (flagAt : Nat → Int) :
    (auto_shutdown flagAt).count (Ev.sleep 1) ≤ 40 ∧
    (auto_shutdown flagAt).count Ev.call_graceful_shutdown ≤ 1 ∧
    ((∀ k, k < 40 → flagAt k = 0) →
      auto_shutdown flagAt = List.replicate 40 (Ev.sleep 1) ++ [Ev.call_graceful_shutdown]) ∧
    (∀ k, k < 40 → flagAt k ≠ 0 → (∀ j, j < k → flagAt j = 0) →
      auto_shutdown flagAt = List.replicate (k + 1) (Ev.sleep 1)) ∧
    ((∃ k, k < 40 ∧ flagAt k ≠ 0) → Ev.call_graceful_shutdown ∉ auto_shutdown flagAt) := by
  refine ⟨(auto_shutdown_loop_counts flagAt 40 0).1, (auto_shutdown_loop_counts flagAt 40 0).2,
    ?_, ?_, ?_⟩
  · intro h
    exact auto_shutdown_loop_unset flagAt 40 0 (fun j hj => by simpa using h j hj)
  · intro k hk hset hbefore
    exact auto_shutdown_loop_set flagAt 40 0 k hk (by simpa using hset)
      (fun i hi => by simpa using hbefore i hi)
  · rintro ⟨k, hk, hset⟩ hcall
    have := auto_shutdown_loop_call flagAt 40 0 hcall k hk
    exact hset (by simpa using this)

/-- C9 witness: with the flag never set the watchdog sleeps 40 times and calls
`graceful_shutdown` once; with the flag first seen set at the eighth check it
returns after eight sleeps. -/
theorem C9_auto_shutdown_watchdog_witness :
    auto_shutdown (fun _ => 0)
        = List.replicate 40 (Ev.sleep 1) ++ [Ev.call_graceful_shutdown] ∧
      auto_shutdown (fun k => if k = 7 then 1 else 0) = List.replicate 8 (Ev.sleep 1) :=
  ⟨(C9_auto_shutdown_watchdog (fun _ => 0)).2.2.1 (fun _ _ => rfl),
    (C9_auto_shutdown_watchdog (fun k => if k = 7 then 1 else 0)).2.2.2.1 7 (by decide)
      (by decide) (fun j hj => by simp [Nat.ne_of_lt hj])⟩

/-! ### A woken baking station at full storage -/

/-- C6 (what the code does). A baking station woken inside the wait of line 56
re-tests only `storage.count >= STORAGE_MAX_COUNT` (line 55): at count 30 it
waits again whatever `shutdownFlag` is. In the scenario with all six stations
blocked at count 30, `graceful_shutdown` wakes all six, each re-tests the count
and blocks again; none has finished, none can move, the count is still 30. -/
theorem C6_woken_baker_waits_again :
    (∀ s : Shared, s.count ≥ 30 →
      (bakingBread_step s BakerPc.notified).map (fun t => (t.next, t.pc))
        = some (s, BakerPc.waiting)) ∧
    (Sys.run
        [Label.graceful_shutdown, Label.baker 0, Label.baker 1, Label.baker 2,
          Label.baker 3, Label.baker 4, Label.baker 5]
        [{ shared := ⟨30, 1, 0⟩
           bakers := List.replicate 6 BakerPc.waiting
           supplier := SupplierPc.pickupDelay }]).bind List.head?
      = some { shared := ⟨30, 1, 1⟩
               bakers := List.replicate 6 BakerPc.waiting
               supplier := SupplierPc.pickupDelay } ∧
    (∀ i, Sys.step (Label.baker i)
        { shared := ⟨30, 1, 1⟩
          bakers := List.replicate 6 BakerPc.waiting
          supplier := SupplierPc.pickupDelay } = none) := by
  refine ⟨?_, by decide, ?_⟩
  · intro s hs
    have : s.count ≥ STORAGE_MAX_COUNT := hs
    simp [bakingBread_step, bakingBread_waitLoop, this]
  · intro i
    simp only [Sys.step]
    cases h : (List.replicate 6 BakerPc.waiting)[i]? with
    | none => rfl
    | some pc =>
      have hm : pc ∈ List.replicate 6 BakerPc.waiting := List.getElem?_mem h
      rw [(List.mem_replicate.mp hm).2]
      rfl

/-! ### The supplier and shutdown -/

/-- Waking does not move a thread into or out of the pickup. -/
theorem SupplierPc.notify_pickup (pc : SupplierPc)
    (h : pc.notify = SupplierPc.pickupDelay ∨ pc.notify = SupplierPc.reset) :
    pc = SupplierPc.pickupDelay ∨ pc = SupplierPc.reset := by
  cases pc <;> simp [SupplierPc.notify] at h ⊢

/-- Delivering wake-ups leaves the supplier where it is, or wakes it. -/
theorem Sys.deliver_supplier (events : List Ev) (s : Sys) :
    (Sys.deliver events s).supplier = s.supplier ∨
      (Sys.deliver events s).supplier = s.supplier.notify := by
  unfold Sys.deliver
  by_cases h : (events.contains (Ev.cond_signal Cond.supplier_cond)
      || events.contains (Ev.cond_broadcast Cond.supplier_cond)) = true
  · right; simp only [h, if_true]
  · left; simp only [h, if_false]; simp

/-- Delivering wake-ups does not touch the shared variables. -/
theorem Sys.deliver_shared (events : List Ev) (s : Sys) :
    (Sys.deliver events s).shared = s.shared := rfl

/-- If the supplier is inside a pickup after wake-ups were delivered, it was before. -/
theorem Sys.deliver_pickup (events : List Ev) (s : Sys)
    (h : (Sys.deliver events s).supplier = SupplierPc.pickupDelay ∨
      (Sys.deliver events s).supplier = SupplierPc.reset) :
    s.supplier = SupplierPc.pickupDelay ∨ s.supplier = SupplierPc.reset := by
  rcases Sys.deliver_supplier events s with e | e
  · rwa [e] at h
  · rw [e] at h; exact SupplierPc.notify_pickup _ h

/-- The supplier's own step enters the pickup only from the flag test of line 76
with the flag unset; it reaches the reset only from the pickup delay. -/
theorem deliverBread_step_pickup (r : Int) (sh : Shared) (pc : SupplierPc)
    (t : ThreadStep SupplierPc) (h : deliverBread_step r sh pc = some t)
    (ht : t.pc = SupplierPc.pickupDelay ∨ t.pc = SupplierPc.reset) :
    (pc = SupplierPc.flagTest ∧ sh.shutdownFlag = 0) ∨ pc = SupplierPc.pickupDelay := by
  cases pc <;> simp only [deliverBread_step] at h
  case loopTest =>
    split_ifs at h <;> (cases h; simp at ht)
  case lockSupplier => cases h; simp at ht
  case waiting => cases h
  case notified => cases h; simp at ht
  case flagTest =>
    split_ifs at h with h0
    · exact Or.inl ⟨rfl, h0⟩
    · cases h; simp at ht
  case pickupDelay => exact Or.inr rfl
  case reset => cases h; simp at ht
  case clear => cases h; simp at ht
  case wakeBakers => cases h; simp at ht
  case finished => cases h

/-- One transition ends with the supplier inside a pickup only if it was there
already, or if the supplier just passed the flag test with the flag unset. -/
theorem Sys.step_pickup (l : Label) (s s1 : Sys) (h : Sys.step l s = some s1)
    (h1 : s1.supplier = SupplierPc.pickupDelay ∨ s1.supplier = SupplierPc.reset) :
    (s.supplier = SupplierPc.flagTest ∧ s.shared.shutdownFlag = 0) ∨
      (s.supplier = SupplierPc.pickupDelay ∨ s.supplier = SupplierPc.reset) := by
  cases l with
  | baker i =>
    simp only [Sys.step] at h
    cases hb : s.bakers[i]? with
    | none => simp [hb] at h
    | some pc =>
      cases hstep : bakingBread_step s.shared pc with
      | none => simp [hb, hstep] at h
      | some t =>
        simp only [hb, hstep, Option.some.injEq] at h
        subst h
        exact Or.inr (Sys.deliver_pickup _ _ h1)
  | supplier r =>
    simp only [Sys.step] at h
    cases hstep : deliverBread_step r s.shared s.supplier with
    | none => simp [hstep] at h
    | some t =>
      simp only [hstep, Option.some.injEq] at h
      subst h
      have h2 := Sys.deliver_pickup _ _ h1
      rcases deliverBread_step_pickup r s.shared s.supplier t hstep h2 with e | e
      · exact Or.inl e
      · exact Or.inr (Or.inl e)
  | qualityCheck r =>
    simp only [Sys.step, Option.some.injEq] at h
    subst h
    exact Or.inr (Sys.deliver_pickup _ _ h1)
  | graceful_shutdown =>
    simp only [Sys.step, Option.some.injEq] at h
    subst h
    exact Or.inr (Sys.deliver_pickup _ _ h1)
  | spuriousBaker i =>
    simp only [Sys.step] at h
    cases hb : s.bakers[i]? with
    | none => simp [hb] at h
    | some pc =>
      simp only [hb, Option.some.injEq] at h
      subst h
      exact Or.inr h1
  | spuriousSupplier =>
    simp only [Sys.step, Option.some.injEq] at h
    subst h
    exact Or.inr (SupplierPc.notify_pickup _ h1)

/-- A schedule extends a chain of transitions by a chain of transitions, and
keeps the state the history started from. -/
theorem Sys.run_chain (ls : List Label) (h h1 : List Sys)
    (hc : List.Chain' (fun new old => ∃ l, Sys.step l old = some new) h)
    (hrun : Sys.run ls h = some h1) :
    List.Chain' (fun new old => ∃ l, Sys.step l old = some new) h1 ∧
      h1.getLast? = h.getLast? := by
  induction ls generalizing h with
  | nil =>
    simp only [Sys.run, Option.some.injEq] at hrun
    subst hrun
    exact ⟨hc, rfl⟩
  | cons l ls ih =>
    cases h with
    | nil => simp [Sys.run] at hrun
    | cons s h =>
      simp only [Sys.run] at hrun
      cases hstep : Sys.step l s with
      | none => simp [hstep] at hrun
      | some s1 =>
        simp only [hstep] at hrun
        have hc1 : List.Chain' (fun new old => ∃ l, Sys.step l old = some new) (s1 :: s :: h) :=
          List.Chain'.cons ⟨l, hstep⟩ hc
        obtain ⟨r1, r2⟩ := ih (s1 :: s :: h) hc1 hrun
        refine ⟨r1, ?_⟩
        rw [r2]
        simp [List.getLast?_cons_cons]

/-- In a history that starts with the supplier at the top of its loop, a state
with the supplier inside a pickup has, earlier on, a state where the supplier
stood at the flag test with the flag unset, and only pickup states in between. -/
theorem Sys.pickup_history (h : List Sys) (s init : Sys)
    (hc : List.Chain' (fun new old => ∃ l, Sys.step l old = some new) (s :: h))
    (hlast : (s :: h).getLast? = some init)
    (hinit : init.supplier = SupplierPc.loopTest)
    (hs : s.supplier = SupplierPc.pickupDelay ∨ s.supplier = SupplierPc.reset) :
    ∃ pre s0 post, h = pre ++ s0 :: post ∧
      s0.supplier = SupplierPc.flagTest ∧ s0.shared.shutdownFlag = 0 ∧
      ∀ t ∈ pre, t.supplier = SupplierPc.pickupDelay ∨ t.supplier = SupplierPc.reset := by
  induction h generalizing s with
  | nil =>
    simp only [List.getLast?_singleton, Option.some.injEq] at hlast
    subst hlast
    rw [hinit] at hs
    simp at hs
  | cons s1 h ih =>
    rw [List.chain'_cons] at hc
    obtain ⟨⟨l, hstep⟩, hc1⟩ := hc
    rw [List.getLast?_cons_cons] at hlast
    rcases Sys.step_pickup l s1 s hstep hs with ⟨e1, e2⟩ | e
    · exact ⟨[], s1, h, rfl, e1, e2, by simp⟩
    · obtain ⟨pre, s0, post, hh, e1, e2, e3⟩ := ih s1 hc1 hlast e
      refine ⟨s1 :: pre, s0, post, by simp [hh], e1, e2, ?_⟩
      intro t ht
      rcases List.mem_cons.mp ht with rfl | ht
      · exact e
      · exact e3 t ht

/-- A baking station never writes `shutdownFlag`. -/
theorem bakingBread_step_flag (sh : Shared) (pc : BakerPc) (t : ThreadStep BakerPc)
    (h : bakingBread_step sh pc = some t) : t.next.shutdownFlag = sh.shutdownFlag := by
  cases pc <;> simp only [bakingBread_step] at h
  case loopTest => split_ifs at h <;> (cases h; rfl)
  case produce =>
    have hf := (bakingBread_critical_flag sh)
    split at h <;> (cases h; exact hf)
  case baking => cases h; rfl
  case lockBaking => cases h; unfold bakingBread_waitLoop; split_ifs <;> rfl
  case waiting => cases h
  case notified => cases h; unfold bakingBread_waitLoop; split_ifs <;> rfl
  case finished => cases h

/-- The supplier never writes `shutdownFlag`. -/
theorem deliverBread_step_flag (r : Int) (sh : Shared) (pc : SupplierPc)
    (t : ThreadStep SupplierPc) (h : deliverBread_step r sh pc = some t) :
    t.next.shutdownFlag = sh.shutdownFlag := by
  cases pc <;> simp only [deliverBread_step] at h
  case loopTest => split_ifs at h <;> (cases h; rfl)
  case flagTest => split_ifs at h <;> (cases h; rfl)
  all_goals (cases h <;> rfl)

/-- No transition clears a set `shutdownFlag`. -/
theorem Sys.step_flag (l : Label) (s s1 : Sys) (h : Sys.step l s = some s1)
    (hf : s.shared.shutdownFlag ≠ 0) : s1.shared.shutdownFlag ≠ 0 := by
  cases l with
  | baker i =>
    simp only [Sys.step] at h
    cases hb : s.bakers[i]? with
    | none => simp [hb] at h
    | some pc =>
      cases hstep : bakingBread_step s.shared pc with
      | none => simp [hb, hstep] at h
      | some t =>
        simp only [hb, hstep, Option.some.injEq] at h
        subst h
        rw [Sys.deliver_shared]
        simpa [bakingBread_step_flag _ _ _ hstep] using hf
  | supplier r =>
    simp only [Sys.step] at h
    cases hstep : deliverBread_step r s.shared s.supplier with
    | none => simp [hstep] at h
    | some t =>
      simp only [hstep, Option.some.injEq] at h
      subst h
      rw [Sys.deliver_shared]
      simpa [deliverBread_step_flag _ _ _ _ hstep] using hf
  | qualityCheck r =>
    simp only [Sys.step, Option.some.injEq] at h
    subst h
    exact hf
  | graceful_shutdown =>
    simp only [Sys.step, Option.some.injEq] at h
    subst h
    simp [Sys.graceful_shutdown, Sys.deliver, Bakery.graceful_shutdown]
  | spuriousBaker i =>
    simp only [Sys.step] at h
    cases hb : s.bakers[i]? with
    | none => simp [hb] at h
    | some pc =>
      simp only [hb, Option.some.injEq] at h
      subst h
      exact hf
  | spuriousSupplier =>
    simp only [Sys.step, Option.some.injEq] at h
    subst h
    exact hf

/-- C7 counterexample: the supplier waits, a baking station bakes twenty loaves
(the twentieth signals the supplier), the supplier wakes and passes the flag
test of line 76 with the flag unset; then `graceful_shutdown` runs during the
pickup delay. The supplier stands before the reset with `shutdownFlag = 1` and
count 20, and its next step empties the storage all the same. -/
theorem C7_reset_after_shutdown_counterexample :
    Sys.exec ([Label.supplier 0, Label.supplier 0] ++ List.replicate 60 (Label.baker 0)
        ++ [Label.supplier 0, Label.supplier 0, Label.graceful_shutdown, Label.supplier 2])
      = some { shared := ⟨20, 1, 1⟩
               bakers := List.replicate 6 BakerPc.loopTest
               supplier := SupplierPc.reset } ∧
    Sys.exec ([Label.supplier 0, Label.supplier 0] ++ List.replicate 60 (Label.baker 0)
        ++ [Label.supplier 0, Label.supplier 0, Label.graceful_shutdown, Label.supplier 2,
            Label.supplier 0])
      = some { shared := ⟨0, 1, 1⟩
               bakers := List.replicate 6 BakerPc.loopTest
               supplier := SupplierPc.clear } ∧
    ¬ (∀ (ls : List Label) (s : Sys), Sys.exec ls = some s →
        s.supplier = SupplierPc.reset → s.shared.shutdownFlag = 0) := by
  have h1 : Sys.exec ([Label.supplier 0, Label.supplier 0] ++ List.replicate 60 (Label.baker 0)
        ++ [Label.supplier 0, Label.supplier 0, Label.graceful_shutdown, Label.supplier 2])
      = some { shared := ⟨20, 1, 1⟩
               bakers := List.replicate 6 BakerPc.loopTest
               supplier := SupplierPc.reset } := by decide
  refine ⟨h1, by decide, fun hall => ?_⟩
  have := hall _ _ h1 rfl
  exact absurd this (by decide)

/-- C7 (amended). In every execution from the initial state, with the
supplier's wake-up, flag test, pickup delay and reset as separate steps, a
state in which the supplier is about to reset the count is preceded by a state
in which the supplier stood at the flag test of line 76 with `shutdownFlag`
unset, with only states of that same pickup in between: no pickup is started
after shutdown was requested. When the supplier wakes with `shutdownFlag` set,
its next three steps (return from the wait, flag test, loop test) take it to
the end of `deliverBread` and leave the shared variables unchanged. No
transition clears a set `shutdownFlag`. -/
theorem C7_no_pickup_started_after_shutdown :
    (∀ (ls : List Label) (s : Sys) (h : List Sys),
        Sys.run ls [Sys.init] = some (s :: h) → s.supplier = SupplierPc.reset →
        ∃ pre s0 post, h = pre ++ s0 :: post ∧
          s0.supplier = SupplierPc.flagTest ∧ s0.shared.shutdownFlag = 0 ∧
          ∀ t ∈ pre, t.supplier = SupplierPc.pickupDelay ∨ t.supplier = SupplierPc.reset) ∧
    (∀ (s : Sys) (r1 r2 r3 : Int), s.supplier = SupplierPc.notified →
        s.shared.shutdownFlag ≠ 0 →
        (Sys.run [Label.supplier r1, Label.supplier r2, Label.supplier r3] [s]).bind List.head?
          = some { s with supplier := SupplierPc.finished }) ∧
    (∀ (l : Label) (s s1 : Sys), Sys.step l s = some s1 →
        s.shared.shutdownFlag ≠ 0 → s1.shared.shutdownFlag ≠ 0) := by
  refine ⟨?_, ?_, Sys.step_flag⟩
  · intro ls s h hrun hs
    obtain ⟨hc, hlast⟩ := Sys.run_chain ls [Sys.init] (s :: h) (List.chain'_singleton _) hrun
    exact Sys.pickup_history h s Sys.init hc (by simpa using hlast) rfl (Or.inr hs)
  · intro s r1 r2 r3 hpc hf
    obtain ⟨sh, bakers, sup⟩ := s
    simp only at hpc hf
    subst hpc
    simp [Sys.run, Sys.step, deliverBread_step, Sys.deliver, hf, SupplierPc.notify]

/-- C7 witness: in the short execution where the supplier is woken (here by a
spurious wake-up), passes the flag test, and shutdown arrives during the
pickup delay, the state before the reset has `shutdownFlag = 1`, and the flag
test of that pickup saw it unset. -/
theorem C7_no_pickup_started_after_shutdown_witness :
    Sys.run [Label.supplier 0, Label.supplier 0, Label.spuriousSupplier,
        Label.supplier 0, Label.supplier 0, Label.graceful_shutdown, Label.supplier 2]
        [Sys.init]
      = some (⟨⟨0, 0, 1⟩, List.replicate 6 BakerPc.loopTest, SupplierPc.reset⟩ ::
          [⟨⟨0, 0, 1⟩, List.replicate 6 BakerPc.loopTest, SupplierPc.pickupDelay⟩,
           ⟨⟨0, 0, 0⟩, List.replicate 6 BakerPc.loopTest, SupplierPc.pickupDelay⟩,
           ⟨⟨0, 0, 0⟩, List.replicate 6 BakerPc.loopTest, SupplierPc.flagTest⟩,
           ⟨⟨0, 0, 0⟩, List.replicate 6 BakerPc.loopTest, SupplierPc.notified⟩,
           ⟨⟨0, 0, 0⟩, List.replicate 6 BakerPc.loopTest, SupplierPc.waiting⟩,
           ⟨⟨0, 0, 0⟩, List.replicate 6 BakerPc.loopTest, SupplierPc.lockSupplier⟩,
           Sys.init]) ∧
    ∃ pre s0 post,
      [⟨⟨0, 0, 1⟩, List.replicate 6 BakerPc.loopTest, SupplierPc.pickupDelay⟩,
       ⟨⟨0, 0, 0⟩, List.replicate 6 BakerPc.loopTest, SupplierPc.pickupDelay⟩,
       ⟨⟨0, 0, 0⟩, List.replicate 6 BakerPc.loopTest, SupplierPc.flagTest⟩,
       ⟨⟨0, 0, 0⟩, List.replicate 6 BakerPc.loopTest, SupplierPc.notified⟩,
       ⟨⟨0, 0, 0⟩, List.replicate 6 BakerPc.loopTest, SupplierPc.waiting⟩,
       ⟨⟨0, 0, 0⟩, List.replicate 6 BakerPc.loopTest, SupplierPc.lockSupplier⟩,
       Sys.init] = pre ++ s0 :: post ∧
      s0.supplier = SupplierPc.flagTest ∧ s0.shared.shutdownFlag = 0 ∧
      ∀ t ∈ pre, t.supplier = SupplierPc.pickupDelay ∨ t.supplier = SupplierPc.reset :=
  ⟨by decide,
    C7_no_pickup_started_after_shutdown.1
      [Label.supplier 0, Label.supplier 0, Label.spuriousSupplier,
        Label.supplier 0, Label.supplier 0, Label.graceful_shutdown, Label.supplier 2]
      ⟨⟨0, 0, 1⟩, List.replicate 6 BakerPc.loopTest, SupplierPc.reset⟩ _ (by decide) rfl⟩

/-! ### Lock discipline -/

/-- The events of a supplier step keep the discipline and give `storage.mutex` back. -/
theorem deliverBread_step_discipline (exempt : Nat → Bool) (r : Int) (sh : Shared)
    (pc : SupplierPc) (t : ThreadStep SupplierPc) (h : deliverBread_step r sh pc = some t)
    (rest : List Ev) :
    lockDiscipline exempt false (t.events ++ rest) = lockDiscipline exempt false rest := by
  cases pc <;> simp only [deliverBread_step] at h
  case loopTest => split_ifs at h <;> (cases h; rfl)
  case flagTest => split_ifs at h <;> (cases h; rfl)
  all_goals (cases h <;>
    simp [lockDiscipline, deliverBread_reset, deliverBread_clear, deliverBread_broadcast])

/-- The events of a produce attempt keep the discipline and give `storage.mutex` back. -/
theorem bakingBread_critical_discipline (exempt : Nat → Bool) (sh : Shared) (rest : List Ev) :
    lockDiscipline exempt false ((bakingBread_critical sh).events ++ rest)
      = lockDiscipline exempt false rest := by
  unfold bakingBread_critical
  dsimp only
  split_ifs <;> simp [lockDiscipline]

/-- The events of a baking-station step keep the discipline once the read of
line 55 is left out of the check, and give `storage.mutex` back. -/
theorem bakingBread_step_discipline (sh : Shared) (pc : BakerPc) (t : ThreadStep BakerPc)
    (h : bakingBread_step sh pc = some t) (rest : List Ev) :
    lockDiscipline (fun line => line == 55) false (t.events ++ rest)
      = lockDiscipline (fun line => line == 55) false rest := by
  cases pc <;> simp only [bakingBread_step] at h
  case loopTest => split_ifs at h <;> (cases h; rfl)
  case produce =>
    split at h <;> (cases h; exact bakingBread_critical_discipline _ sh rest)
  case baking => cases h; simp [lockDiscipline]
  case lockBaking =>
    cases h; unfold bakingBread_waitLoop; split_ifs <;> simp [lockDiscipline]
  case waiting => cases h
  case notified =>
    cases h; unfold bakingBread_waitLoop; split_ifs <;> simp [lockDiscipline]
  case finished => cases h

/-- C10 counterexample: a baking station that finds the storage full (count 30)
locks `storage.mutex`, reads the count (line 35), unlocks, locks
`baking_mutex` and reads `storage.count` again (line 55) without holding
`storage.mutex`; and `main` writes `storage.count` (line 243) holding no lock. -/
theorem C10_lock_discipline_counterexample :
    bakingBread_events [⟨30, 0, 0⟩, ⟨30, 0, 0⟩, ⟨30, 0, 0⟩] BakerPc.loopTest
      = [Ev.lock Mutex.storage_mutex, Ev.readCount 35, Ev.unlock Mutex.storage_mutex,
         Ev.lock Mutex.baking_mutex, Ev.readCount 55,
         Ev.cond_wait Cond.baking_cond Mutex.baking_mutex] ∧
    disciplined (bakingBread_events [⟨30, 0, 0⟩, ⟨30, 0, 0⟩, ⟨30, 0, 0⟩] BakerPc.loopTest)
      = false ∧
    disciplined main_events = false := by
  decide

/-- C10 (amended). Every access to `storage.count` made by the supplier
(`deliverBread`, whatever it finds at each step), by the handler
`qualityCheck`, and by a baking station outside line 55 (in particular all of
the produce attempt, lines 33-51) lies between a lock of `storage.mutex` and
the matching unlock. `main` never locks a mutex: its one access, the final
write of line 243, comes last, after the joins and the destruction of the
mutexes. -/
theorem C10_lock_discipline_amended :
    (∀ (seen : List (Int × Shared)),
        disciplined (deliverBread_events seen SupplierPc.loopTest) = true) ∧
    (∀ (r : Int) (s : Shared), disciplined (qualityCheck r s).events = true) ∧
    (∀ s : Shared, disciplined (bakingBread_critical s).events = true) ∧
    (∀ (seen : List Shared),
        lockDiscipline (fun line => line == 55) false
          (bakingBread_events seen BakerPc.loopTest) = true) ∧
    ((∀ m, Ev.lock m ∉ main_events) ∧
      lockDiscipline (fun line => line == 243) false main_events = true ∧
      main_events.drop 26
        = [Ev.mutex_destroy Mutex.storage_mutex, Ev.mutex_destroy Mutex.supplier_mutex,
           Ev.mutex_destroy Mutex.baking_mutex, Ev.cond_destroy Cond.supplier_cond,
           Ev.cond_destroy Cond.baking_cond, Ev.writeCount 243]) := by
  refine ⟨?_, ?_, ?_, ?_, ?_, by decide, by decide⟩
  · intro seen
    suffices h : ∀ pc, lockDiscipline (fun _ => false) false (deliverBread_events seen pc) = true
      from h _
    induction seen with
    | nil => intro pc; rfl
    | cons x seen ih =>
      intro pc
      obtain ⟨r, s⟩ := x
      simp only [deliverBread_events]
      cases hstep : deliverBread_step r s pc with
      | none => exact ih _
      | some t =>
        simp only []
        rw [deliverBread_step_discipline _ r s pc t hstep]
        exact ih _
  · intro r s
    unfold disciplined qualityCheck
    dsimp only
    split_ifs <;> simp [lockDiscipline]
  · intro s
    have := bakingBread_critical_discipline (fun _ => false) s []
    simpa [disciplined, lockDiscipline] using this
  · intro seen
    suffices h : ∀ pc, lockDiscipline (fun line => line == 55) false
        (bakingBread_events seen pc) = true from h _
    induction seen with
    | nil => intro pc; rfl
    | cons s seen ih =>
      intro pc
      simp only [bakingBread_events]
      cases hstep : bakingBread_step s pc with
      | none => exact ih _
      | some t =>
        simp only []
        rw [bakingBread_step_discipline s pc t hstep]
        exact ih _
  · intro m
    cases m <;> decide

end Bakery
